import Mathlib

/-!
Verification development for the provider-integration fragment:
the ClickHouse connection hook (`ClickHouseHook`), the Github connection
hook (`GithubHook`), the generic method-invocation operator
(`GithubOperator`) and the removed HDFS sensor stubs.

The Python code is shallowly embedded: connection descriptors become
structures, the mutable `self.client` field becomes explicit state
passing, Python exceptions become an `Except` value whose error type
distinguishes the exception classes that matter to the control flow,
and Python strings rendered by `str(...)` in the logging helper are
modelled as `List Char`.
-/

namespace Spec2Proof

set_option maxRecDepth 40000

/-- Values stored in keyword-argument mappings (`extra_dejson`,
`connection_kwargs`, `github_method_args`). Only strings and integers
occur in the code under study. -/
inductive PyValue where
  | str (s : String)
  | int (n : Nat)
deriving DecidableEq, Repr

/-- A Python `dict` used as keyword arguments, as an association list in
insertion order with unique keys (the invariant of a Python dict). -/
abbrev Kwargs := List (String × PyValue)

/-- Python `dict.update` with a single key: replace the first binding of
the key in place, otherwise append the new binding, as a Python dict
does. -/
def Kwargs.update (kw : Kwargs) (k : String) (v : PyValue) : Kwargs :=
  match kw with
  | [] => [(k, v)]
  | p :: t => if p.1 == k then (k, v) :: t else p :: Kwargs.update t k v

/-- Python `dict.__getitem__` as an optional lookup. -/
def Kwargs.get (kw : Kwargs) (k : String) : Option PyValue :=
  (kw.find? (fun p => p.1 == k)).map (fun p => p.2)

/-- Python exceptions relevant to the embedded code, each carrying the
string `str(e)` of the original exception. -/
inductive PyExc where
  | attributeError (msg : String)
  | typeError (msg : String)
  | githubException (msg : String)
  | airflowException (msg : String)
  | clientError (msg : String)
deriving DecidableEq, Repr

/-- Python `str(e)` on an exception value: its message. -/
def PyExc.str : PyExc → String
  | .attributeError m => m
  | .typeError m => m
  | .githubException m => m
  | .airflowException m => m
  | .clientError m => m

/-! ## ClickHouseHook.query (clickhouse.py lines 104-122) -/

/-- ClickHouseHook.query: runs the client's `execute` primitive inside a
`try`; any raised exception is re-raised as
`AirflowException("Failed to execute SQL Query, error: " + str(error))`;
on success the raw result is returned unchanged. The underlying
`self.client.execute` is an opaque capability, passed as a function
returning `Except`. -/
def ClickHouseHook.query {ρ : Type} (execute : String → Option Kwargs → Except PyExc ρ)
    (q : String) (params : Option Kwargs) : Except PyExc ρ :=
  match execute q params with
  | .ok r => .ok r
  | .error e => .error (.airflowException ("Failed to execute SQL Query, error: " ++ e.str))

/-! ## GithubOperator.execute (github operators, lines 44-74) -/

/-- The client handle (`hook.client`) as seen through `getattr`: a
surface of named methods. `methods name = none` models the absence of
the attribute, in which case `getattr` raises `AttributeError`. Each
method takes the expanded keyword arguments and may raise. -/
structure GithubResource (ρ : Type) where
  methods : String → Option (Kwargs → Except PyExc ρ)

/-- The body of the `try` block of GithubOperator.execute:
`getattr(resource, method_name)(**github_method_args)` followed by the
optional `result_processor`. Calling with `github_method_args = None`
models `f(**None)`, which raises `TypeError` in Python even for methods
taking no arguments; `getattr` is evaluated first, so a missing
attribute raises `AttributeError` before the argument expansion. The
hook construction (`GithubHook(...)`) is assumed to succeed; the
result processor is modelled without the execution context. -/
def githubTryBlock {ρ : Type} (resource : GithubResource ρ) (method_name : String)
    (github_method_args : Option Kwargs) (result_processor : Option (ρ → ρ)) :
    Except PyExc ρ :=
  match resource.methods method_name with
  | none => .error (.attributeError ("Github object has no attribute " ++ method_name))
  | some f =>
    match github_method_args with
    | none => .error (.typeError "argument after ** must be a mapping, not NoneType")
    | some args =>
      match f args with
      | .error e => .error e
      | .ok r =>
        match result_processor with
        | some proc => .ok (proc r)
        | none => .ok r

/-- The `except` clauses of GithubOperator.execute: a `GithubException`
is re-raised as `AirflowException("Failed to execute GithubOperator,
error: ...")`, any other exception as
`AirflowException("Github operator error: ...")`. -/
def githubWrap {ρ : Type} : Except PyExc ρ → Except PyExc ρ
  | .ok r => .ok r
  | .error (.githubException m) =>
      .error (.airflowException ("Failed to execute GithubOperator, error: " ++ m))
  | .error e => .error (.airflowException ("Github operator error: " ++ e.str))

/-- GithubOperator.execute: the `try` body wrapped by the two `except`
clauses. -/
def GithubOperator.execute {ρ : Type} (resource : GithubResource ρ) (method_name : String)
    (github_method_args : Option Kwargs) (result_processor : Option (ρ → ρ)) :
    Except PyExc ρ :=
  githubWrap (githubTryBlock resource method_name github_method_args result_processor)

/-! ## Deprecated HDFS sensors (hdfs.py) -/

/-- The module-level `_EXCEPTION_MESSAGE` constant of hdfs.py,
verbatim. -/
def EXCEPTION_MESSAGE : String :=
  "The old HDFS Sensors have been removed in 4.0.0 version of the apache.hdfs provider.\nPlease convert your DAGs to use the WebHdfsSensor or downgrade the provider to below 4.*\nif you want to continue using it.\nIf you want to use earlier provider you can downgrade to latest released 3.* version\nusing `pip install apache-airflow-providers-apache-hdfs==3.2.1` (no constraints)\n"

/-- Outcome of a sensor `__init__` call: it always raises. -/
inductive SensorInit where
  | raised (msg : String)
deriving DecidableEq, Repr

/-- HdfsSensor.__init__: raises `RuntimeError(_EXCEPTION_MESSAGE)`
unconditionally, for any `*args, **kwargs`. -/
def HdfsSensor.init (args : List PyValue) (kwargs : Kwargs) : SensorInit :=
  .raised EXCEPTION_MESSAGE

/-- HdfsRegexSensor.__init__: identical unconditional raise. -/
def HdfsRegexSensor.init (args : List PyValue) (kwargs : Kwargs) : SensorInit :=
  .raised EXCEPTION_MESSAGE

/-- HdfsFolderSensor.__init__: identical unconditional raise. -/
def HdfsFolderSensor.init (args : List PyValue) (kwargs : Kwargs) : SensorInit :=
  .raised EXCEPTION_MESSAGE

/-! ## Connection descriptors and ClickHouseHook.get_conn
(clickhouse.py lines 45-52 and 80-102) -/

/-- The Airflow connection descriptor as used by the ClickHouse hook:
primary fields are optional strings (`port` is stored as a string in
the end-to-end scenario and converted with `int(...)`), plus the
free-form `extra_dejson` mapping. -/
structure Connection where
  host : Option String
  port : Option String
  login : Option String
  password : Option String
  schema : Option String
  extra_dejson : Kwargs
deriving DecidableEq, Repr

/-- Python truthiness of an `Optional[str]` field: `None` and the empty
string are falsy. -/
def pyTruthy : Option String → Bool
  | none => false
  | some s => s != ""

/-- Python `int(s)` on a decimal digit string (the only use in the
code), as a fold over the digits; non-digit inputs are outside the
modelled domain. -/
def pyInt (s : String) : Nat :=
  s.data.foldl (fun n c => n * 10 + (c.toNat - '0'.toNat)) 0

/-- Python `a or default` for an `Optional[str]`: the default is used
when `a` is falsy. -/
def pyOr (a : Option String) (dflt : String) : String :=
  match a with
  | none => dflt
  | some s => if s == "" then dflt else s

/-- The parameter-building portion of ClickHouseHook.get_conn (lines
85-101): start from a copy of `extra_dejson`; overwrite `port` (as
`int(conn.port)`), `user` and `password` from the descriptor's primary
fields when each is truthy; then set `database` from the constructor
argument when truthy, else from the descriptor's schema when truthy;
the positional host is `conn.host or "localhost"`. Returns the host
together with the final `connection_kwargs`. -/
def clickHouseConnParams (database : Option String) (conn : Connection) : String × Kwargs :=
  let kw0 := conn.extra_dejson
  let kw1 := if pyTruthy conn.port then
      Kwargs.update kw0 "port" (.int (pyInt (conn.port.getD ""))) else kw0
  let kw2 := if pyTruthy conn.login then
      Kwargs.update kw1 "user" (.str (conn.login.getD "")) else kw1
  let kw3 := if pyTruthy conn.password then
      Kwargs.update kw2 "password" (.str (conn.password.getD "")) else kw2
  let kw4 := if pyTruthy database then
      Kwargs.update kw3 "database" (.str (database.getD ""))
    else if pyTruthy conn.schema then
      Kwargs.update kw3 "database" (.str (conn.schema.getD ""))
    else kw3
  (pyOr conn.host "localhost", kw4)

/-- The ClickHouse client handle: `ClickHouseClient(host, **kwargs)`
records exactly its construction arguments. -/
structure ClickHouseClient where
  host : String
  kwargs : Kwargs
deriving DecidableEq, Repr

/-- The client handle ClickHouseHook.get_conn constructs for a given
constructor `database` argument and resolved descriptor. -/
def ClickHouseHook.mkClient (database : Option String) (conn : Connection) : ClickHouseClient :=
  ⟨(clickHouseConnParams database conn).1, (clickHouseConnParams database conn).2⟩

/-- The mutable state of a ClickHouseHook instance: the constructor
arguments, the resolved descriptor (standing in for
`get_connection(self.clickhouse_conn_id)`), the `self.client` field,
and a count of `ClickHouseClient(...)` constructor invocations. -/
structure ClickHouseHookState where
  database : Option String
  conn : Connection
  client : Option ClickHouseClient
  clientCalls : Nat
deriving DecidableEq, Repr

/-- ClickHouseHook.get_conn as a state transition: return the cached
client when `self.client is not None`, otherwise build the parameters,
construct the client, store and return it. -/
def ClickHouseHook.get_conn (s : ClickHouseHookState) : ClickHouseHookState × ClickHouseClient :=
  match s.client with
  | some c => (s, c)
  | none =>
    let c := ClickHouseHook.mkClient s.database s.conn
    ({ s with client := some c, clientCalls := s.clientCalls + 1 }, c)

/-- ClickHouseHook.__init__: sets `self.client = None` and then calls
`self.get_conn()` before returning. -/
def ClickHouseHook.init (conn : Connection) (database : Option String) : ClickHouseHookState :=
  (ClickHouseHook.get_conn { database := database, conn := conn, client := none, clientCalls := 0 }).1

/-- A sequence of `n` further get_conn calls on a ClickHouse hook,
keeping only the final state. -/
def ClickHouseHook.iterate : Nat → ClickHouseHookState → ClickHouseHookState
  | 0, s => s
  | Nat.succ n, s => ClickHouseHook.iterate n (ClickHouseHook.get_conn s).1

/-! ## GithubHook.get_conn (github hooks, lines 43-62) -/

/-- The descriptor fields the Github hook reads: only `password` (the
access token). -/
structure GithubConnection where
  password : Option String
deriving DecidableEq, Repr

/-- The Github client handle: `GithubClient(login_or_token=token)`
records its construction argument. -/
structure GithubClient where
  login_or_token : Option String
deriving DecidableEq, Repr

/-- The mutable state of a GithubHook instance. -/
structure GithubHookState where
  conn : GithubConnection
  client : Option GithubClient
  clientCalls : Nat
deriving DecidableEq, Repr

/-- GithubHook.get_conn as a state transition: return the cached client
when present, otherwise construct `GithubClient(login_or_token =
connection.password)`, store and return it. -/
def GithubHook.get_conn (s : GithubHookState) : GithubHookState × GithubClient :=
  match s.client with
  | some c => (s, c)
  | none =>
    let c : GithubClient := ⟨s.conn.password⟩
    ({ s with client := some c, clientCalls := s.clientCalls + 1 }, c)

/-- GithubHook.__init__: sets `self.client = None` and then calls
`self.get_conn()` before returning. -/
def GithubHook.init (conn : GithubConnection) : GithubHookState :=
  (GithubHook.get_conn { conn := conn, client := none, clientCalls := 0 }).1

/-- A sequence of `n` further get_conn calls on a Github hook. -/
def GithubHook.iterate : Nat → GithubHookState → GithubHookState
  | 0, s => s
  | Nat.succ n, s => GithubHook.iterate n (GithubHook.get_conn s).1

/-! ## ClickHouseHook._log_params (clickhouse.py lines 54-68)

Python strings produced by `str(...)` are modelled as `List Char`. -/

/-- The characters of a string literal. -/
def sLit (s : String) : List Char :=
  s.data

/-- The query parameters accepted by `_log_params`: a dict (entries
pre-rendered as `repr(key): repr(value)` texts), a list, a tuple, or a
generator. A generator carries the stream's elements (never consumed)
and the text `str(...)` renders for the generator object, which does
not depend on the elements. -/
inductive QueryParams where
  | dict (entries : List (List Char))
  | list (items : List (List Char))
  | tuple (items : List (List Char))
  | gen (items : List (List Char)) (text : List Char)

/-- Python `str` of a dict whose entries render as the given texts:
`{e1, e2, ...}` in insertion order. -/
def pyStrDict (entries : List (List Char)) : List Char :=
  sLit "\x7b" ++ List.intercalate (sLit ", ") entries ++ ['\x7d']

/-- Python `str` of a list: `[e1, e2, ...]`. -/
def pyStrList (items : List (List Char)) : List Char :=
  sLit "[" ++ List.intercalate (sLit ", ") items ++ [']']

/-- Python `str` of a tuple: `(e1, e2, ...)`, with the trailing comma
of a one-element tuple. -/
def pyStrTuple : List (List Char) → List Char
  | [x] => sLit "(" ++ x ++ sLit "," ++ [')']
  | xs => sLit "(" ++ List.intercalate (sLit ", ") xs ++ [')']

/-- ClickHouseHook._log_params: a generator, or any parameters of
length at most `limit`, are rendered whole by `str`; otherwise the
first `limit` entries are rendered, the closing bracket
(`head_str[-1]`) is removed (`head_str[:-1]`) and a
`" … and <n> more parameters"` suffix plus that closing bracket is
appended. -/
def ClickHouseHook.log_params : QueryParams → Nat → List Char
  | .gen _ text, _ => text
  | .dict es, limit =>
    if es.length ≤ limit then pyStrDict es
    else (pyStrDict (es.take limit)).dropLast ++ sLit " … and " ++
      sLit (toString (es.length - limit)) ++ sLit " more parameters" ++
      [(pyStrDict (es.take limit)).getLastD ' ']
  | .list is, limit =>
    if is.length ≤ limit then pyStrList is
    else (pyStrList (is.take limit)).dropLast ++ sLit " … and " ++
      sLit (toString (is.length - limit)) ++ sLit " more parameters" ++
      [(pyStrList (is.take limit)).getLastD ' ']
  | .tuple ts, limit =>
    if ts.length ≤ limit then pyStrTuple ts
    else (pyStrTuple (ts.take limit)).dropLast ++ sLit " … and " ++
      sLit (toString (ts.length - limit)) ++ sLit " more parameters" ++
      [(pyStrTuple (ts.take limit)).getLastD ' ']

/-- The connection descriptor of the end-to-end scenario:
`{host: "db.example.com", port: "9000", login: "root", password: "pw",
schema: "default"}` with empty extra options. -/
def scenarioConn : Connection :=
  { host := some "db.example.com", port := some "9000", login := some "root",
    password := some "pw", schema := some "default", extra_dejson := [] }

/-- A descriptor whose extra-options mapping sets `port` while the
primary port field is also set (and truthy). -/
def extraPortConn : Connection :=
  { host := some "h", port := some "9000", login := none, password := none,
    schema := none, extra_dejson := [("port", .int 1234)] }

/-- Boolean test that `needle` occurs at the start of `hay`. -/
def charsHasPre : List Char → List Char → Bool
  | [], _ => true
  | _ :: _, [] => false
  | n :: ns, h :: hs => n == h && charsHasPre ns hs

/-- Boolean substring test on character lists. -/
def charsContains (hay needle : List Char) : Bool :=
  match hay with
  | [] => needle.isEmpty
  | _ :: hs => charsHasPre needle hay || charsContains hs needle

/-- Boolean substring test on strings. -/
def strContains (hay needle : String) : Bool :=
  charsContains hay.data needle.data

/-! ## Helper lemmas -/

theorem Kwargs.get_update_self (kw : Kwargs) (k : String) (v : PyValue) :
    (Kwargs.update kw k v).get k = some v := by
  induction kw with
  | nil => simp [Kwargs.update, Kwargs.get, List.find?]
  | cons p t ih =>
    by_cases h : p.1 == k
    · simp [Kwargs.update, h, Kwargs.get, List.find?]
    · simpa [Kwargs.update, h, Kwargs.get, List.find?] using ih

theorem Kwargs.get_update_other (kw : Kwargs) (k k' : String) (v : PyValue) (h : k' ≠ k) :
    (Kwargs.update kw k v).get k' = kw.get k' := by
  have hkk : (k == k') = false := by simp [Ne.symm h]
  induction kw with
  | nil => simp [Kwargs.update, Kwargs.get, List.find?, hkk]
  | cons p t ih =>
    by_cases hp : p.1 == k
    · have hpk : p.1 = k := by simpa using hp
      simp [Kwargs.update, hp, Kwargs.get, List.find?, hpk, h, Ne.symm h, hkk]
    · by_cases hq : p.1 == k'
      · simp [Kwargs.update, hp, Kwargs.get, List.find?, hq]
      · simpa [Kwargs.update, hp, Kwargs.get, List.find?, hq] using ih

theorem ch_get_conn_cached (s : ClickHouseHookState) (c : ClickHouseClient)
    (h : s.client = some c) : ClickHouseHook.get_conn s = (s, c) := by
  simp [ClickHouseHook.get_conn, h]

theorem gh_get_conn_cached (s : GithubHookState) (c : GithubClient)
    (h : s.client = some c) : GithubHook.get_conn s = (s, c) := by
  simp [GithubHook.get_conn, h]

theorem ch_iterate_cached (n : Nat) (s : ClickHouseHookState) (c : ClickHouseClient)
    (h : s.client = some c) : ClickHouseHook.iterate n s = s := by
  induction n with
  | zero => rfl
  | succ n ih =>
    simp only [ClickHouseHook.iterate]
    rw [ch_get_conn_cached s c h]
    exact ih

theorem gh_iterate_cached (n : Nat) (s : GithubHookState) (c : GithubClient)
    (h : s.client = some c) : GithubHook.iterate n s = s := by
  induction n with
  | zero => rfl
  | succ n ih =>
    simp only [GithubHook.iterate]
    rw [gh_get_conn_cached s c h]
    exact ih

theorem dropLast_close (xs : List Char) (c : Char) : (xs ++ [c]).dropLast = xs :=
  List.dropLast_concat

theorem getLastD_close (xs : List Char) (c : Char) : (xs ++ [c]).getLastD ' ' = c :=
  List.getLastD_concat _ _ _

theorem pyStrDict_dropLast (es : List (List Char)) :
    (pyStrDict es).dropLast = sLit "\x7b" ++ List.intercalate (sLit ", ") es :=
  dropLast_close _ _

theorem pyStrDict_getLastD (es : List (List Char)) :
    (pyStrDict es).getLastD ' ' = '\x7d' :=
  getLastD_close _ _

theorem pyStrList_dropLast (is : List (List Char)) :
    (pyStrList is).dropLast = sLit "[" ++ List.intercalate (sLit ", ") is :=
  dropLast_close _ _

theorem pyStrList_getLastD (is : List (List Char)) :
    (pyStrList is).getLastD ' ' = ']' :=
  getLastD_close _ _

theorem pyStrTuple_of_len_ne_one (ts : List (List Char)) (h : ts.length ≠ 1) :
    pyStrTuple ts = sLit "(" ++ List.intercalate (sLit ", ") ts ++ [')'] := by
  cases ts with
  | nil => rfl
  | cons x t =>
    cases t with
    | nil => exact absurd rfl h
    | cons y t2 => rfl

theorem log_params_dict_full (es : List (List Char)) (limit : Nat)
    (h : es.length ≤ limit) :
    ClickHouseHook.log_params (.dict es) limit = pyStrDict es := by
  simp only [ClickHouseHook.log_params]
  rw [if_pos h]

theorem log_params_dict_truncated (es : List (List Char)) (limit : Nat)
    (h : limit < es.length) :
    ClickHouseHook.log_params (.dict es) limit =
      sLit "\x7b" ++ List.intercalate (sLit ", ") (es.take limit) ++ sLit " … and " ++
        sLit (toString (es.length - limit)) ++ sLit " more parameters" ++ ['\x7d'] := by
  simp only [ClickHouseHook.log_params]
  rw [if_neg (Nat.not_le.mpr h), pyStrDict_dropLast, pyStrDict_getLastD]

theorem log_params_list_full (is : List (List Char)) (limit : Nat)
    (h : is.length ≤ limit) :
    ClickHouseHook.log_params (.list is) limit = pyStrList is := by
  simp only [ClickHouseHook.log_params]
  rw [if_pos h]

theorem log_params_list_truncated (is : List (List Char)) (limit : Nat)
    (h : limit < is.length) :
    ClickHouseHook.log_params (.list is) limit =
      sLit "[" ++ List.intercalate (sLit ", ") (is.take limit) ++ sLit " … and " ++
        sLit (toString (is.length - limit)) ++ sLit " more parameters" ++ [']'] := by
  simp only [ClickHouseHook.log_params]
  rw [if_neg (Nat.not_le.mpr h), pyStrList_dropLast, pyStrList_getLastD]

theorem log_params_tuple_full (ts : List (List Char)) (limit : Nat)
    (h : ts.length ≤ limit) :
    ClickHouseHook.log_params (.tuple ts) limit = pyStrTuple ts := by
  simp only [ClickHouseHook.log_params]
  rw [if_pos h]

theorem log_params_tuple_truncated (ts : List (List Char)) (limit : Nat)
    (h : limit < ts.length) (h1 : limit ≠ 1) :
    ClickHouseHook.log_params (.tuple ts) limit =
      sLit "(" ++ List.intercalate (sLit ", ") (ts.take limit) ++ sLit " … and " ++
        sLit (toString (ts.length - limit)) ++ sLit " more parameters" ++ [')'] := by
  have hlen : (ts.take limit).length ≠ 1 := by
    rw [List.length_take]
    omega
  simp only [ClickHouseHook.log_params]
  rw [if_neg (Nat.not_le.mpr h), pyStrTuple_of_len_ne_one _ hlen,
    dropLast_close, getLastD_close]

theorem log_params_tuple_one (x y : List Char) (t : List (List Char)) :
    ClickHouseHook.log_params (.tuple (x :: y :: t)) 1 =
      sLit "(" ++ x ++ sLit "," ++ sLit " … and " ++
        sLit (toString ((x :: y :: t).length - 1)) ++ sLit " more parameters" ++ [')'] := by
  have hn : ¬ (x :: y :: t).length ≤ 1 := by
    simp [List.length_cons]
  simp only [ClickHouseHook.log_params]
  rw [if_neg hn]
  rw [show (x :: y :: t).take 1 = [x] from rfl]
  rw [show pyStrTuple [x] = (sLit "(" ++ x ++ sLit ",") ++ [')'] from rfl]
  rw [dropLast_close, getLastD_close]

/-! ## Claim theorems -/

/-- C1 counterexample: for a descriptor whose extra-options mapping
sets port to 1234 while the primary port field is "9000" (truthy),
get_conn resolves port to 9000 — the primary field, not the
extra-options key, takes precedence, refuting the claimed layering. -/
theorem c1_counterexample :
    (clickHouseConnParams none extraPortConn).2.get "port" = some (.int 9000) ∧
    (clickHouseConnParams none extraPortConn).2.get "port" ≠ some (.int 1234) := by
  decide

/-- C1 (amended): get_conn layers with the opposite precedence between
the lower two layers: the extra-options mapping is the base, each
truthy primary field (port as `int(...)` under key "port", login under
"user", password under "password") overwrites the corresponding
extra-options key, and a truthy explicit constructor `database`
overwrites everything under "database". -/
theorem c1_amended (db : Option String) (conn : Connection) :
    (∀ p, conn.port = some p → p ≠ "" →
      (clickHouseConnParams db conn).2.get "port" = some (.int (pyInt p))) ∧
    (∀ l, conn.login = some l → l ≠ "" →
      (clickHouseConnParams db conn).2.get "user" = some (.str l)) ∧
    (∀ pw, conn.password = some pw → pw ≠ "" →
      (clickHouseConnParams db conn).2.get "password" = some (.str pw)) ∧
    (∀ d, db = some d → d ≠ "" →
      (clickHouseConnParams db conn).2.get "database" = some (.str d)) := by
  refine ⟨?_, ?_, ?_, ?_⟩
  · intro p hp hne
    have hb : pyTruthy (some p) = true := by simp [pyTruthy, hne]
    simp only [clickHouseConnParams, hp, Option.getD_some, hb, if_true]
    split_ifs <;>
      simp [Kwargs.get_update_other, Kwargs.get_update_self]
  · intro l hl hne
    have hb : pyTruthy (some l) = true := by simp [pyTruthy, hne]
    simp only [clickHouseConnParams, hl, Option.getD_some, hb, if_true]
    split_ifs <;>
      simp [Kwargs.get_update_other, Kwargs.get_update_self]
  · intro pw hpw hne
    have hb : pyTruthy (some pw) = true := by simp [pyTruthy, hne]
    simp only [clickHouseConnParams, hpw, Option.getD_some, hb, if_true]
    split_ifs <;>
      simp [Kwargs.get_update_other, Kwargs.get_update_self]
  · intro d hd hne
    have hb : pyTruthy (some d) = true := by simp [pyTruthy, hne]
    simp only [clickHouseConnParams, hd, Option.getD_some, hb, if_true]
    split_ifs <;>
      simp [Kwargs.get_update_other, Kwargs.get_update_self]

/-- C1 witness: the amended layering applied to the scenario
descriptor resolves port from its truthy primary field. -/
theorem c1_amended_witness :
    (clickHouseConnParams none scenarioConn).2.get "port" =
      some (.int (pyInt "9000")) :=
  (c1_amended none scenarioConn).1 "9000" rfl (by decide)

/-- C9: the end-to-end scenario descriptor resolves to host
"db.example.com" with port 9000 (as an integer), user "root", password
"pw" and database "default"; and every descriptor with host unset
resolves to host "localhost". -/
theorem c9_end_to_end (db port login password schema : Option String) (extra : Kwargs) :
    ((clickHouseConnParams none scenarioConn).1 = "db.example.com" ∧
      (clickHouseConnParams none scenarioConn).2.get "port" = some (.int 9000) ∧
      (clickHouseConnParams none scenarioConn).2.get "user" = some (.str "root") ∧
      (clickHouseConnParams none scenarioConn).2.get "password" = some (.str "pw") ∧
      (clickHouseConnParams none scenarioConn).2.get "database" = some (.str "default")) ∧
    (clickHouseConnParams db
      { host := none, port := port, login := login, password := password,
        schema := schema, extra_dejson := extra }).1 = "localhost" := by
  exact ⟨by decide, rfl⟩

/-- C2 counterexample: constructing a ClickHouseHook or a GithubHook is
not lazy — `__init__` calls `get_conn()`, so the freshly constructed
hook already holds a client handle. -/
theorem c2_counterexample :
    (ClickHouseHook.init
      { host := none, port := none, login := none, password := none,
        schema := none, extra_dejson := [] } none).client ≠ none ∧
    (GithubHook.init { password := some "tok" }).client ≠ none := by
  decide

/-- C2 (amended): the client handle is created eagerly during hook
construction (`__init__` itself calls `get_conn`), and that handle is
cached for the instance's lifetime: a subsequent `get_conn` returns it
with the state unchanged. -/
theorem c2_amended (conn : Connection) (db : Option String) (gconn : GithubConnection) :
    (ClickHouseHook.init conn db).client = some (ClickHouseHook.mkClient db conn) ∧
    ClickHouseHook.get_conn (ClickHouseHook.init conn db) =
      (ClickHouseHook.init conn db, ClickHouseHook.mkClient db conn) ∧
    (GithubHook.init gconn).client = some ⟨gconn.password⟩ ∧
    GithubHook.get_conn (GithubHook.init gconn) =
      (GithubHook.init gconn, ⟨gconn.password⟩) := by
  refine ⟨rfl, ?_, rfl, ?_⟩
  · exact ch_get_conn_cached _ _ rfl
  · exact gh_get_conn_cached _ _ rfl

/-- C3: connecting is idempotent for both hooks: `get_conn` on an
initialized hook returns the cached handle with the state unchanged,
and over any sequence of further `get_conn` calls the underlying client
constructor count stays at exactly one. -/
theorem c3_get_conn_idempotent (conn : Connection) (db : Option String)
    (gconn : GithubConnection) (n : Nat) :
    (ClickHouseHook.get_conn (ClickHouseHook.init conn db)).1 = ClickHouseHook.init conn db ∧
    (ClickHouseHook.get_conn (ClickHouseHook.init conn db)).2 = ClickHouseHook.mkClient db conn ∧
    (ClickHouseHook.iterate n (ClickHouseHook.init conn db)).clientCalls = 1 ∧
    (GithubHook.get_conn (GithubHook.init gconn)).1 = GithubHook.init gconn ∧
    (GithubHook.get_conn (GithubHook.init gconn)).2 = GithubClient.mk gconn.password ∧
    (GithubHook.iterate n (GithubHook.init gconn)).clientCalls = 1 := by
  have hch := ch_get_conn_cached (ClickHouseHook.init conn db)
    (ClickHouseHook.mkClient db conn) rfl
  have hgh := gh_get_conn_cached (GithubHook.init gconn) ⟨gconn.password⟩ rfl
  refine ⟨by rw [hch], by rw [hch], ?_, by rw [hgh], by rw [hgh], ?_⟩
  · rw [ch_iterate_cached n _ (ClickHouseHook.mkClient db conn) rfl]
    rfl
  · rw [gh_iterate_cached n _ ⟨gconn.password⟩ rfl]
    rfl

/-- C4: any error raised by the client's execute primitive during
ClickHouseHook.query is re-raised as an AirflowException whose message
is "Failed to execute SQL Query, error: " followed by the original
error's message; on success the raw result is returned unchanged. -/
theorem c4_query_error_wrapping {ρ : Type}
    (execute : String → Option Kwargs → Except PyExc ρ)
    (q : String) (params : Option Kwargs) :
    (∀ e, execute q params = .error e →
      ClickHouseHook.query execute q params =
        .error (.airflowException ("Failed to execute SQL Query, error: " ++ PyExc.str e))) ∧
    (∀ r, execute q params = .ok r →
      ClickHouseHook.query execute q params = .ok r) := by
  constructor
  · intro e he
    simp [ClickHouseHook.query, he]
  · intro r hr
    simp [ClickHouseHook.query, hr]

/-- C4 witness: a client whose execute always raises `boom` surfaces as
the wrapped AirflowException. -/
theorem c4_witness :
    ClickHouseHook.query
      (fun _ _ => (Except.error (PyExc.clientError "boom") : Except PyExc Nat))
      "SELECT 1" none =
      .error (.airflowException
        ("Failed to execute SQL Query, error: " ++ PyExc.str (PyExc.clientError "boom"))) :=
  (c4_query_error_wrapping
    (fun _ _ => (Except.error (PyExc.clientError "boom") : Except PyExc Nat))
    "SELECT 1" none).1 (PyExc.clientError "boom") rfl

/-- C5: invoking GithubOperator.execute with a method name absent from
the client handle's surface fails with an AirflowException (the
AttributeError from getattr is caught by the generic except clause and
re-raised wrapped), never with an AttributeError. -/
theorem c5_missing_method {ρ : Type} (resource : GithubResource ρ) (name : String)
    (args : Option Kwargs) (proc : Option (ρ → ρ))
    (h : resource.methods name = none) :
    GithubOperator.execute resource name args proc =
      .error (.airflowException ("Github operator error: " ++
        ("Github object has no attribute " ++ name))) := by
  simp [GithubOperator.execute, githubTryBlock, h, githubWrap, PyExc.str]

/-- C5 witness: a client with an empty method surface turns a lookup of
`frobnicate` into the wrapped AirflowException. -/
theorem c5_witness :
    GithubOperator.execute ({ methods := fun _ => none } : GithubResource Nat)
      "frobnicate" none none =
      .error (.airflowException ("Github operator error: " ++
        ("Github object has no attribute " ++ "frobnicate"))) :=
  c5_missing_method ({ methods := fun _ => none } : GithubResource Nat)
    "frobnicate" none none rfl

/-- C6: all three deprecated HDFS sensor constructors raise immediately
and unconditionally with the same fixed message, which names the
WebHdfsSensor replacement and the downgrade path. -/
theorem c6_deprecated_sensors (args : List PyValue) (kwargs : Kwargs) :
    HdfsSensor.init args kwargs = .raised EXCEPTION_MESSAGE ∧
    HdfsRegexSensor.init args kwargs = .raised EXCEPTION_MESSAGE ∧
    HdfsFolderSensor.init args kwargs = .raised EXCEPTION_MESSAGE ∧
    strContains EXCEPTION_MESSAGE "WebHdfsSensor" = true ∧
    strContains EXCEPTION_MESSAGE "downgrade" = true ∧
    strContains EXCEPTION_MESSAGE "pip install apache-airflow-providers-apache-hdfs==3.2.1" = true :=
  ⟨rfl, rfl, rfl, by decide, by decide, by decide⟩

/-- C8: a generator parameter is logged as exactly the text `str`
renders for the generator object, for every limit and regardless of the
elements of the stream (which are never consumed). -/
theorem c8_generator_logged_full (items : List (List Char)) (text : List Char) (limit : Nat) :
    ClickHouseHook.log_params (.gen items text) limit = text := rfl

/-- C10: with `github_method_args` left at its default `None`, the
unconditional `**` expansion makes GithubOperator.execute fail with an
AirflowException for every method name, even for methods that take no
arguments. -/
theorem c10_none_args_always_fails {ρ : Type} (resource : GithubResource ρ)
    (name : String) (proc : Option (ρ → ρ)) :
    ∃ msg, GithubOperator.execute resource name none proc =
      .error (.airflowException msg) := by
  cases h : resource.methods name with
  | none =>
    refine ⟨"Github operator error: " ++ ("Github object has no attribute " ++ name), ?_⟩
    simp [GithubOperator.execute, githubTryBlock, h, githubWrap, PyExc.str]
  | some f =>
    refine ⟨"Github operator error: " ++ "argument after ** must be a mapping, not NoneType", ?_⟩
    simp [GithubOperator.execute, githubTryBlock, h, githubWrap, PyExc.str]

/-- C7: a mapping with 15 entries at the preview limit 10 is logged as
exactly its first 10 entries followed by a " … and 5 more parameters"
suffix; in general, any mapping or sequence of length at most the limit
is rendered in full with no suffix, and any longer one is truncated to
its first `limit` entries plus a count-of-remaining-items suffix (for a
tuple at limit 1 the lone previewed entry keeps Python's one-element
tuple trailing comma). -/
theorem c7_log_params_truncation (es ls ts : List (List Char)) (limit : Nat) :
    (es.length = 15 →
      ClickHouseHook.log_params (.dict es) 10 =
        sLit "\x7b" ++ List.intercalate (sLit ", ") (es.take 10) ++ sLit " … and " ++
          sLit "5" ++ sLit " more parameters" ++ ['\x7d']) ∧
    (es.length ≤ limit → ClickHouseHook.log_params (.dict es) limit = pyStrDict es) ∧
    (limit < es.length →
      ClickHouseHook.log_params (.dict es) limit =
        sLit "\x7b" ++ List.intercalate (sLit ", ") (es.take limit) ++ sLit " … and " ++
          sLit (toString (es.length - limit)) ++ sLit " more parameters" ++ ['\x7d']) ∧
    (ls.length ≤ limit → ClickHouseHook.log_params (.list ls) limit = pyStrList ls) ∧
    (limit < ls.length →
      ClickHouseHook.log_params (.list ls) limit =
        sLit "[" ++ List.intercalate (sLit ", ") (ls.take limit) ++ sLit " … and " ++
          sLit (toString (ls.length - limit)) ++ sLit " more parameters" ++ [']']) ∧
    (ts.length ≤ limit → ClickHouseHook.log_params (.tuple ts) limit = pyStrTuple ts) ∧
    (limit < ts.length → limit ≠ 1 →
      ClickHouseHook.log_params (.tuple ts) limit =
        sLit "(" ++ List.intercalate (sLit ", ") (ts.take limit) ++ sLit " … and " ++
          sLit (toString (ts.length - limit)) ++ sLit " more parameters" ++ [')']) ∧
    (∀ x y t2, ts = x :: y :: t2 →
      ClickHouseHook.log_params (.tuple ts) 1 =
        sLit "(" ++ x ++ sLit "," ++ sLit " … and " ++
          sLit (toString (ts.length - 1)) ++ sLit " more parameters" ++ [')']) := by
  refine ⟨?_, ?_, ?_, ?_, ?_, ?_, ?_, ?_⟩
  · intro h15
    rw [log_params_dict_truncated es 10 (by omega), h15,
      show (toString (15 - 10 : Nat)) = "5" from rfl]
  · exact log_params_dict_full es limit
  · exact log_params_dict_truncated es limit
  · exact log_params_list_full ls limit
  · exact log_params_list_truncated ls limit
  · exact log_params_tuple_full ts limit
  · exact log_params_tuple_truncated ts limit
  · intro x y t2 hts
    subst hts
    exact log_params_tuple_one x y t2

/-- C7 witness: a 15-entry mapping previewed at limit 10 keeps its
first 10 entries and gains the "5 more parameters" suffix; a short
mapping is rendered whole. -/
theorem c7_witness :
    ClickHouseHook.log_params (.dict (List.replicate 15 (sLit "x"))) 10 =
      sLit "\x7b" ++
        List.intercalate (sLit ", ") ((List.replicate 15 (sLit "x")).take 10) ++
        sLit " … and " ++ sLit "5" ++ sLit " more parameters" ++ ['\x7d'] ∧
    ClickHouseHook.log_params (.dict [sLit "a"]) 10 = pyStrDict [sLit "a"] ∧
    ClickHouseHook.log_params (.list (List.replicate 12 (sLit "y"))) 10 =
      sLit "[" ++
        List.intercalate (sLit ", ") ((List.replicate 12 (sLit "y")).take 10) ++
        sLit " … and " ++ sLit (toString ((List.replicate 12 (sLit "y")).length - 10)) ++
        sLit " more parameters" ++ [']'] :=
  ⟨(c7_log_params_truncation (List.replicate 15 (sLit "x")) [] [] 10).1 (by decide),
   (c7_log_params_truncation [sLit "a"] [] [] 10).2.1 (by decide),
   (c7_log_params_truncation [] (List.replicate 12 (sLit "y")) [] 10).2.2.2.2.1 (by decide)⟩

end Spec2Proof
